import Mathlib

/-!
Verification of the request-translation layer of the teamhood-mcp server
(`src/index.ts`): a JavaScript/TypeScript MCP adapter that maps named tool
invocations to HTTP calls against the Teamhood REST API.

The embedding models JavaScript runtime values (`JVal`, including
`undefined`), the transport client `apiRequest`, the query-string builder
(`URLSearchParams` accumulation and form-url serialization), the platform
`JSON.stringify` (with and without 2-space indentation), the static tool
catalog, the dispatcher `handleToolCall` (parameterized by a backend oracle
representing the HTTP exchange, and instrumented to record the calls it
issues), and the `CallToolRequestSchema` handler that wraps results and
errors into the MCP response envelope.

Notes on the modelling:
* Numbers are modelled as integers (`Int`); every numeric value appearing
  in the verified properties is integral.
* `JSON.stringify` and the string coercion `String(x)` are defined with an
  explicit fuel (any fuel larger than the nesting depth of the value gives
  the JS result); this keeps every definition kernel-reducible.
* Platform effects (`fetch`, `JSON.parse`) are parameters: `apiRequest`
  takes the fetch function and the parse function, `handleToolCall` takes a
  backend oracle `ApiCall -> Except String JVal` abstracting one complete
  HTTP exchange.
-/

/-- A JavaScript runtime value, as used by the dispatcher: JSON values plus
`undefined`.  Object fields keep their insertion order. -/
inductive JVal where
  | undefined : JVal
  | null : JVal
  | bool : Bool → JVal
  | num : Int → JVal
  | str : String → JVal
  | arr : List JVal → JVal
  | obj : List (String × JVal) → JVal

/-- Whether the value is JavaScript `undefined`. -/
def JVal.isUndefined : JVal → Bool
  | .undefined => true
  | _ => false

/-- JavaScript truthiness: `undefined`, `null`, `false`, `0` and `""` are
falsy; every other value (including `[]` and `\x7b\x7d`) is truthy. -/
def jsTruthy : JVal → Bool
  | .undefined => false
  | .null => false
  | .bool b => b
  | .num n => n != 0
  | .str s => s != ""
  | .arr _ => true
  | .obj _ => true

/-- JavaScript `a || b` (used for the `args.tags || []` defaults). -/
def jsOr (a b : JVal) : JVal := if jsTruthy a then a else b

/-- JavaScript `a ?? b` (nullish coalescing, used for `args.archived ?? true`
and the `list_activities` paging defaults). -/
def jsNullish (a b : JVal) : JVal :=
  match a with
  | .undefined => b
  | .null => b
  | v => v

/-- JavaScript strict equality `===` restricted to the uses in the source:
primitives compare structurally; two object or array values obtained from
distinct parses are never identical references, so they compare unequal. -/
def jsStrictEq : JVal → JVal → Bool
  | .undefined, .undefined => true
  | .null, .null => true
  | .bool a, .bool b => a == b
  | .num a, .num b => a == b
  | .str a, .str b => a == b
  | _, _ => false

/-- Property access `v.k`: `undefined` when the key is absent or the value
is not an object.  (In JS, access on `null`/`undefined` throws; no verified
property exercises that path.) -/
def jsGetProp (v : JVal) (k : String) : JVal :=
  match v with
  | .obj fs => (fs.lookup k).getD .undefined
  | _ => .undefined

/-- An argument record, as delivered by the MCP layer: a JS object.  Keys
are distinct in every record the server receives. -/
abbrev Args := List (String × JVal)

/-- Property access `args.k` on the argument record (`undefined` when the
argument was not supplied). -/
def getArg (args : Args) (k : String) : JVal := (args.lookup k).getD .undefined

/-- Lowercase hexadecimal digit, for `\uXXXX` escapes in JSON strings. -/
def hexDigitLower (n : Nat) : Char :=
  if n < 10 then Char.ofNat (48 + n) else Char.ofNat (87 + n)

/-- Uppercase hexadecimal digit, for percent-encoding. -/
def hexDigitUpper (n : Nat) : Char :=
  if n < 10 then Char.ofNat (48 + n) else Char.ofNat (55 + n)

/-- Escape of one character inside a JSON string literal, following
`JSON.stringify`: quote, backslash and the named control escapes, `\uXXXX`
for the remaining control characters, everything else verbatim. -/
def escapeJsonChar (c : Char) : String :=
  if c = '"' then "\\\""
  else if c = '\\' then "\\\\"
  else if c = '\x08' then "\\b"
  else if c = '\x09' then "\\t"
  else if c = '\x0a' then "\\n"
  else if c = '\x0c' then "\\f"
  else if c = '\x0d' then "\\r"
  else if c.toNat < 32 then
    "\\u00" ++ String.singleton (hexDigitLower (c.toNat / 16)) ++
      String.singleton (hexDigitLower (c.toNat % 16))
  else String.singleton c

/-- A JSON string literal with surrounding quotes, as `JSON.stringify`
emits it. -/
def jsonQuote (s : String) : String :=
  "\"" ++ String.join (s.toList.map escapeJsonChar) ++ "\""

/-- Indentation emitted by `JSON.stringify(v, null, gap)` at `depth`. -/
def indentStr (gap depth : Nat) : String :=
  String.mk (List.replicate (gap * depth) ' ')

/-- Fuel-indexed body of `JSON.stringify(v, null, gap)` (gap `0` is the
compact form `JSON.stringify(v)`).  Object fields whose value is
`undefined` are dropped; an `undefined` array element serializes as
`null`, exactly as in JS.  Any fuel exceeding the nesting depth of the
value yields the JS output. -/
def stringifyFuel : Nat → Nat → Nat → JVal → String
  | 0, _, _, _ => ""
  | _ + 1, _, _, .undefined => "null"
  | _ + 1, _, _, .null => "null"
  | _ + 1, _, _, .bool true => "true"
  | _ + 1, _, _, .bool false => "false"
  | _ + 1, _, _, .num n => toString n
  | _ + 1, _, _, .str s => jsonQuote s
  | f + 1, gap, depth, .arr xs =>
      if xs.isEmpty then "[]"
      else if gap = 0 then
        "[" ++ String.intercalate "," (xs.map (stringifyFuel f 0 (depth + 1))) ++ "]"
      else
        "[\n" ++
          String.intercalate ",\n"
            (xs.map (fun x => indentStr gap (depth + 1) ++ stringifyFuel f gap (depth + 1) x)) ++
          "\n" ++ indentStr gap depth ++ "]"
  | f + 1, gap, depth, .obj fs =>
      let kept := fs.filter (fun p => !p.2.isUndefined)
      if kept.isEmpty then "\x7b\x7d"
      else if gap = 0 then
        "\x7b" ++
          String.intercalate ","
            (kept.map (fun p => jsonQuote p.1 ++ ":" ++ stringifyFuel f 0 (depth + 1) p.2)) ++
          "\x7d"
      else
        "\x7b\n" ++
          String.intercalate ",\n"
            (kept.map (fun p =>
              indentStr gap (depth + 1) ++ jsonQuote p.1 ++ ": " ++
                stringifyFuel f gap (depth + 1) p.2)) ++
          "\n" ++ indentStr gap depth ++ "\x7d"

mutual

/-- Size of a value, used as fuel for the recursions below; it strictly
exceeds the nesting depth of the value. -/
def jsize : JVal → Nat
  | .undefined => 1
  | .null => 1
  | .bool _ => 1
  | .num _ => 1
  | .str _ => 1
  | .arr xs => 1 + jsizeList xs
  | .obj fs => 1 + jsizeFields fs

/-- Combined size of the elements of an array value. -/
def jsizeList : List JVal → Nat
  | [] => 0
  | x :: l => jsize x + jsizeList l

/-- Combined size of the field values of an object value. -/
def jsizeFields : List (String × JVal) → Nat
  | [] => 0
  | p :: l => jsize p.2 + jsizeFields l

end

/-- JSON.stringify with the given gap (`2` for the MCP response envelope,
`0` for the compact request bodies).  The fuel `jsize v` always exceeds
the nesting depth of `v`. -/
def jsonStringify (gap : Nat) (v : JVal) : String :=
  stringifyFuel (jsize v) gap 0 v

/-- Fuel-indexed JavaScript string coercion `String(x)`: strings pass
through, numbers and booleans print, arrays join their elements with commas
(`null`/`undefined` elements become empty), plain objects print as
`[object Object]`. -/
def jsToStringFuel : Nat → JVal → String
  | 0, _ => ""
  | _ + 1, .undefined => "undefined"
  | _ + 1, .null => "null"
  | _ + 1, .bool true => "true"
  | _ + 1, .bool false => "false"
  | _ + 1, .num n => toString n
  | _ + 1, .str s => s
  | f + 1, .arr xs =>
      String.intercalate ","
        (xs.map (fun x =>
          match x with
          | .undefined => ""
          | .null => ""
          | v => jsToStringFuel f v))
  | _ + 1, .obj _ => "[object Object]"

/-- JavaScript string coercion `String(x)` / template interpolation. -/
def jsToString (v : JVal) : String := jsToStringFuel (jsize v) v

/-- Bytes of the UTF-8 encoding of a character. -/
def charUtf8Bytes (c : Char) : List Nat :=
  let n := c.toNat
  if n < 128 then [n]
  else if n < 2048 then [192 + n / 64, 128 + n % 64]
  else if n < 65536 then [224 + n / 4096, 128 + (n / 64) % 64, 128 + n % 64]
  else [240 + n / 262144, 128 + (n / 4096) % 64, 128 + (n / 64) % 64, 128 + n % 64]

/-- Whether a byte stays literal under `application/x-www-form-urlencoded`
serialization (the `URLSearchParams.toString` alphabet): ASCII
alphanumerics and `*`, `-`, `.`, `_`. -/
def isFormSafe (n : Nat) : Bool :=
  (48 ≤ n && n ≤ 57) || (65 ≤ n && n ≤ 90) || (97 ≤ n && n ≤ 122) ||
    n == 42 || n == 45 || n == 46 || n == 95

/-- Form-url encoding of one byte: literal, `+` for space, `%XX` otherwise. -/
def encodeFormByte (n : Nat) : String :=
  if isFormSafe n then String.singleton (Char.ofNat n)
  else if n == 32 then "+"
  else "%" ++ String.singleton (hexDigitUpper (n / 16)) ++
    String.singleton (hexDigitUpper (n % 16))

/-- `application/x-www-form-urlencoded` encoding of a string, as
`URLSearchParams.toString` applies to each name and value. -/
def formUrlEncode (s : String) : String :=
  String.join (s.toList.map (fun c => String.join ((charUtf8Bytes c).map encodeFormByte)))

/-- Serialization of an ordered `URLSearchParams` pair list. -/
def serializeParams (ps : List (String × String)) : String :=
  String.intercalate "&" (ps.map (fun p => formUrlEncode p.1 ++ "=" ++ formUrlEncode p.2))

/-- HTTP method, as accepted by `apiRequest`. -/
inductive Method where
  | GET : Method
  | POST : Method
  | PUT : Method
  | DELETE : Method
deriving DecidableEq

/-- The HTTP request `apiRequest` hands to `fetch`: absolute URL, method,
header list in insertion order, and the serialized body if one is sent. -/
structure FetchRequest where
  url : String
  method : Method
  headers : List (String × String)
  body : Option String
deriving DecidableEq

/-- The HTTP response `fetch` delivers: the `ok` flag (success status), the
numeric status, and the raw body text. -/
structure HttpResponse where
  ok : Bool
  status : Nat
  text : String
deriving DecidableEq

/-- Request construction inside `apiRequest` (src/index.ts lines 69-83):
URL is `BASE_URL + endpoint`; the `Authorization` (raw API key) and
`Content-Type: application/json` headers are set unconditionally; the body
is serialized with compact `JSON.stringify` and attached only when it is
truthy and the method is POST or PUT. -/
def buildFetchRequest (baseUrl apiKey endpoint : String) (method : Method)
    (body : Option JVal) : FetchRequest :=
  { url := baseUrl ++ endpoint
    method := method
    headers := [("Authorization", apiKey), ("Content-Type", "application/json")]
    body :=
      match body with
      | some v =>
          if jsTruthy v && (method = Method.POST || method = Method.PUT) then
            some (jsonStringify 0 v)
          else none
      | none => none }

/-- Response handling inside `apiRequest` (src/index.ts lines 85-95): a
non-ok status throws `API Error <status>: <raw text>`; an empty body
yields `\x7b\x7d`; otherwise the body is `JSON.parse`d.  `fetch` and
`JSON.parse` are platform functions and enter as parameters. -/
def apiRequest (baseUrl apiKey : String) (endpoint : String) (method : Method)
    (body : Option JVal) (fetch : FetchRequest → HttpResponse)
    (parse : String → JVal) : Except String JVal :=
  let response := fetch (buildFetchRequest baseUrl apiKey endpoint method body)
  if !response.ok then
    .error ("API Error " ++ toString response.status ++ ": " ++ response.text)
  else if response.text = "" then .ok (.obj [])
  else .ok (parse response.text)

/-- Body of one backend call as the dispatcher describes it: either a JSON
value (serialized by the transport client) or the multipart form of
`upload_attachment` (fields `ItemId`, `Name`, and the binary `Content`
part, carried here as the caller's base64 text whose decoding is
transmitted). -/
inductive ReqBody where
  | json : JVal → ReqBody
  | multipart : String → String → String → ReqBody

/-- One backend HTTP exchange as issued by the dispatcher: endpoint path
with query, method, and optional body. -/
structure ApiCall where
  endpoint : String
  method : Method
  body : Option ReqBody

/-- The type of an argument in a tool's input schema.  Array element
schemas and per-property description strings are inert data never read by
the dispatcher and are elided here. -/
inductive SchemaType where
  | string : SchemaType
  | number : SchemaType
  | boolean : SchemaType
  | array : SchemaType
  | object : SchemaType
deriving DecidableEq

/-- One tool descriptor of the static catalog: name, description, the
declared properties (name and type, in order) and the required-argument
list. -/
structure ToolSpec where
  name : String
  description : String
  properties : List (String × SchemaType)
  required : List String
deriving DecidableEq

/-- The static tool catalog (src/index.ts lines 101-555), in source
order. -/
def tools : List ToolSpec := [
  { name := "list_workspaces"
    description := "List all workspaces you have access to"
    properties := []
    required := [] },
  { name := "get_workspace"
    description := "Get workspace details including settings and metadata"
    properties := [("workspaceId", .string)]
    required := ["workspaceId"] },
  { name := "create_workspace"
    description := "Create a new workspace. Requires templateId from list_workspace_templates and ownerId from list_users."
    properties := [("title", .string), ("displayId", .string), ("icon", .string),
      ("color", .number), ("templateId", .string), ("ownerId", .string)]
    required := ["title", "displayId", "icon", "templateId", "ownerId"] },
  { name := "add_workspace_member"
    description := "Add a user to a workspace with Collaborator role (API does not support custom roles)"
    properties := [("workspaceId", .string), ("userId", .string)]
    required := ["workspaceId", "userId"] },
  { name := "list_boards"
    description := "List all boards in a workspace"
    properties := [("workspaceId", .string)]
    required := ["workspaceId"] },
  { name := "get_board"
    description := "Get a specific board by ID (returns board info from workspace boards list)"
    properties := [("workspaceId", .string), ("boardId", .string)]
    required := ["workspaceId", "boardId"] },
  { name := "create_board"
    description := "Create a new board in a workspace. Requires templateId from list_board_templates."
    properties := [("workspaceId", .string), ("title", .string), ("displayId", .string),
      ("templateId", .string), ("viewType", .string)]
    required := ["workspaceId", "title", "displayId", "templateId", "viewType"] },
  { name := "list_rows"
    description := "List rows (swimlanes) on a board for grouping items"
    properties := [("boardId", .string)]
    required := ["boardId"] },
  { name := "list_statuses"
    description := "List status columns on a board (workflow stages)"
    properties := [("boardId", .string)]
    required := ["boardId"] },
  { name := "create_row"
    description := "Create a new row (swimlane) on a board"
    properties := [("boardId", .string), ("title", .string), ("startDate", .string),
      ("endDate", .string)]
    required := ["boardId", "title"] },
  { name := "list_items"
    description := "Search and filter items across boards with pagination"
    properties := [("workspaceId", .string), ("boardId", .string), ("statusId", .string),
      ("rowId", .string), ("assignedUserId", .string), ("ownerId", .string),
      ("parentId", .string), ("completed", .boolean), ("tags", .array),
      ("customFields", .array), ("createdSince", .string), ("modifiedSince", .string),
      ("completedSince", .string), ("includeChildItems", .boolean), ("skip", .number),
      ("take", .number)]
    required := [] },
  { name := "get_item"
    description := "Get full item details including custom fields and metadata"
    properties := [("itemId", .string)]
    required := ["itemId"] },
  { name := "create_item"
    description := "Create a new item (task/card) on a board"
    properties := [("workspaceId", .string), ("boardId", .string), ("statusId", .string),
      ("title", .string), ("description", .string), ("rowId", .string),
      ("assigneeId", .string), ("startDate", .string), ("dueDate", .string),
      ("color", .number), ("tags", .array), ("customFields", .array),
      ("blocking", .array), ("waiting", .array)]
    required := ["workspaceId", "boardId", "statusId", "title"] },
  { name := "update_item"
    description := "Update item properties (title, status, board, assignee, dates, etc.)"
    properties := [("itemId", .string), ("title", .string), ("description", .string),
      ("statusId", .string), ("rowId", .string), ("boardId", .string),
      ("assigneeId", .string), ("startDate", .string), ("dueDate", .string),
      ("color", .number), ("tags", .array), ("customFields", .array),
      ("blocking", .array), ("waiting", .array), ("archived", .boolean),
      ("milestone", .boolean), ("progress", .number), ("parentId", .string)]
    required := ["itemId"] },
  { name := "delete_item"
    description := "Permanently delete an item"
    properties := [("itemId", .string)]
    required := ["itemId"] },
  { name := "move_item"
    description := "Move an item to a different board, status column, or row (swimlane)"
    properties := [("itemId", .string), ("targetBoardId", .string),
      ("targetStatusId", .string), ("targetRowId", .string)]
    required := ["itemId"] },
  { name := "archive_item"
    description := "Archive or unarchive an item (soft delete - item can be restored)"
    properties := [("itemId", .string), ("archived", .boolean)]
    required := ["itemId"] },
  { name := "list_attachments"
    description := "List all attachments on an item"
    properties := [("itemId", .string)]
    required := ["itemId"] },
  { name := "get_attachment"
    description := "Get attachment metadata (name, size, type)"
    properties := [("attachmentId", .string)]
    required := ["attachmentId"] },
  { name := "download_attachment"
    description := "Download attachment file content by ID"
    properties := [("attachmentId", .string)]
    required := ["attachmentId"] },
  { name := "update_attachment"
    description := "Update attachment name"
    properties := [("attachmentId", .string), ("name", .string)]
    required := ["attachmentId", "name"] },
  { name := "delete_attachment"
    description := "Permanently delete an attachment"
    properties := [("attachmentId", .string)]
    required := ["attachmentId"] },
  { name := "upload_attachment"
    description := "Upload a file attachment to an item. Note: For binary files, content should be base64 encoded."
    properties := [("itemId", .string), ("name", .string), ("content", .string)]
    required := ["itemId", "name", "content"] },
  { name := "list_users"
    description := "List all users in the organization"
    properties := []
    required := [] },
  { name := "get_time_logs"
    description := "Get time logs for a workspace within a date range. Can filter by boards, rows, users, or tags."
    properties := [("workspaceId", .string), ("startDate", .string), ("endDate", .string),
      ("boardIds", .array), ("rowIds", .array), ("userIds", .array), ("tags", .array)]
    required := ["workspaceId", "startDate", "endDate"] },
  { name := "list_workspace_templates"
    description := "List available workspace templates"
    properties := []
    required := [] },
  { name := "list_board_templates"
    description := "List available board templates. Use templateId when creating a new board."
    properties := []
    required := [] },
  { name := "list_activities"
    description := "Get item change history on a board (audit log)"
    properties := [("boardId", .string), ("startDate", .string), ("endDate", .string),
      ("offset", .number), ("limit", .number)]
    required := ["boardId", "startDate", "endDate"] },
  { name := "list_system_logs"
    description := "List system logs by date range with paging"
    properties := [("fromDate", .string), ("toDate", .string), ("skip", .number),
      ("take", .number)]
    required := ["fromDate", "toDate"] }]

/-- Query pairs appended for a filter guarded by `if (args.x)`: one pair
when the value is truthy, nothing otherwise. -/
def qTruthy (key : String) (v : JVal) : List (String × String) :=
  if jsTruthy v then [(key, jsToString v)] else []

/-- Query pairs appended for a filter guarded by `if (args.x !== undefined)`:
one pair (with the `String(x)` coercion) whenever the value is defined. -/
def qDefined (key : String) (v : JVal) : List (String × String) :=
  if v.isUndefined then [] else [(key, jsToString v)]

/-- Elements iterated by `for (const x of v)`: array elements; a string
iterates its characters.  (Other truthy values throw in JS; no verified
property reaches that path.) -/
def jsElems : JVal → List JVal
  | .arr xs => xs
  | .str s => s.toList.map (fun c => .str (String.singleton c))
  | _ => []

/-- Query pairs appended for an array filter: guarded by `if (args.x)`, one
pair per element under the same repeated key. -/
def qEach (key : String) (v : JVal) : List (String × String) :=
  if jsTruthy v then (jsElems v).map (fun t => (key, jsToString t)) else []

/-- The ordered `URLSearchParams` segments built by `list_items`
(src/index.ts lines 622-646), one per filter argument, in source order. -/
def listItemsSegs (args : Args) : List (List (String × String)) := [
  qTruthy "WorkspaceId" (getArg args "workspaceId"),
  qTruthy "BoardId" (getArg args "boardId"),
  qTruthy "StatusId" (getArg args "statusId"),
  qTruthy "RowId" (getArg args "rowId"),
  qTruthy "AssignedUserId" (getArg args "assignedUserId"),
  qTruthy "OwnerId" (getArg args "ownerId"),
  qTruthy "ParentId" (getArg args "parentId"),
  qDefined "Completed" (getArg args "completed"),
  qEach "Tags" (getArg args "tags"),
  qEach "CustomFields" (getArg args "customFields"),
  qTruthy "CreatedSince" (getArg args "createdSince"),
  qTruthy "ModifiedSince" (getArg args "modifiedSince"),
  qTruthy "CompletedSince" (getArg args "completedSince"),
  qDefined "IncludeChildItems" (getArg args "includeChildItems"),
  qDefined "Skip" (getArg args "skip"),
  qDefined "Take" (getArg args "take")]

/-- The `URLSearchParams` pair list accumulated by `list_items`: the
sequential `append` calls concatenate the per-filter segments in order. -/
def listItemsParams (args : Args) : List (String × String) :=
  (listItemsSegs args).flatten

/-- The `create_item` request body (src/index.ts lines 655-673): an object
literal whose fields with `undefined` values are dropped by
`JSON.stringify` on serialization. -/
def createItemBody (args : Args) : JVal :=
  .obj [
    ("workspaceId", getArg args "workspaceId"),
    ("boardId", getArg args "boardId"),
    ("statusId", getArg args "statusId"),
    ("title", getArg args "title"),
    ("description", getArg args "description"),
    ("rowId", getArg args "rowId"),
    ("assignedUserId", getArg args "assigneeId"),
    ("startDate", getArg args "startDate"),
    ("dueDate", getArg args "dueDate"),
    ("color", getArg args "color"),
    ("tags", jsOr (getArg args "tags") (.arr [])),
    ("customFields", jsOr (getArg args "customFields") (.arr [])),
    ("blocking", jsOr (getArg args "blocking") (.arr [])),
    ("waiting", jsOr (getArg args "waiting") (.arr [])),
    ("milestone", .bool false),
    ("isSuspended", .bool false),
    ("suspendReason", .str "")]

/-- One conditional field of the `update_item` patch object: present with
the caller's value exactly when the argument is defined. -/
def condField (key : String) (v : JVal) : List (String × JVal) :=
  if v.isUndefined then [] else [(key, v)]

/-- The `updateData` object assembled by `update_item` (src/index.ts lines
676-693): the sequence of `if (args.x !== undefined)` guarded assignments,
in source order, with `assigneeId` assigned to the `userId` key. -/
def updateItemData (args : Args) : List (String × JVal) :=
  condField "title" (getArg args "title") ++
  condField "description" (getArg args "description") ++
  condField "statusId" (getArg args "statusId") ++
  condField "rowId" (getArg args "rowId") ++
  condField "boardId" (getArg args "boardId") ++
  condField "userId" (getArg args "assigneeId") ++
  condField "startDate" (getArg args "startDate") ++
  condField "dueDate" (getArg args "dueDate") ++
  condField "color" (getArg args "color") ++
  condField "tags" (getArg args "tags") ++
  condField "customFields" (getArg args "customFields") ++
  condField "blocking" (getArg args "blocking") ++
  condField "waiting" (getArg args "waiting") ++
  condField "archived" (getArg args "archived") ++
  condField "milestone" (getArg args "milestone") ++
  condField "progress" (getArg args "progress") ++
  condField "parentId" (getArg args "parentId")

/-- A backend oracle: the outcome of one complete HTTP exchange for a
given call, as `apiRequest` (or the inline upload `fetch`) delivers it to
the dispatcher — the parsed JSON value on success, the thrown error
message on failure. -/
abbrev Backend := ApiCall → Except String JVal

/-- The dispatcher `handleToolCall` (src/index.ts lines 560-807),
instrumented to also return the list of backend calls it issues.  Each
case translates one tool to its HTTP template; `get_board` issues the
boards-list request for the workspace and searches the result locally;
an unknown name throws `Unknown tool: <name>`. -/
def handleToolCall (backend : Backend) (name : String) (args : Args) :
    Except String JVal × List ApiCall :=
  let one : ApiCall → Except String JVal × List ApiCall :=
    fun c => (backend c, [c])
  match name with
  | "list_workspaces" => one ⟨"/workspaces", .GET, none⟩
  | "get_workspace" =>
      one ⟨"/workspaces/" ++ jsToString (getArg args "workspaceId"), .GET, none⟩
  | "create_workspace" =>
      one ⟨"/workspaces", .POST, some (.json (.obj [
        ("title", getArg args "title"),
        ("displayId", getArg args "displayId"),
        ("icon", getArg args "icon"),
        ("color", getArg args "color"),
        ("templateId", getArg args "templateId"),
        ("ownerId", getArg args "ownerId")]))⟩
  | "add_workspace_member" =>
      one ⟨"/workspaces/" ++ jsToString (getArg args "workspaceId") ++ "/users/" ++
        jsToString (getArg args "userId"), .PUT, some (.json (.obj []))⟩
  | "list_boards" =>
      one ⟨"/workspaces/" ++ jsToString (getArg args "workspaceId") ++ "/boards", .GET, none⟩
  | "get_board" =>
      let c : ApiCall :=
        ⟨"/workspaces/" ++ jsToString (getArg args "workspaceId") ++ "/boards", .GET, none⟩
      match backend c with
      | .error e => (.error e, [c])
      | .ok boards =>
          match boards with
          | .arr l =>
              match l.find? (fun b => jsStrictEq (jsGetProp b "id") (getArg args "boardId")) with
              | some board => (.ok board, [c])
              | none =>
                  (.error ("Board " ++ jsToString (getArg args "boardId") ++
                    " not found in workspace"), [c])
          | _ => (.error "boards.find is not a function", [c])
  | "create_board" =>
      one ⟨"/boards", .POST, some (.json (.obj [
        ("workspaceId", getArg args "workspaceId"),
        ("title", getArg args "title"),
        ("displayId", getArg args "displayId"),
        ("templateId", getArg args "templateId"),
        ("viewType", getArg args "viewType")]))⟩
  | "list_rows" =>
      one ⟨"/boards/" ++ jsToString (getArg args "boardId") ++ "/rows", .GET, none⟩
  | "list_statuses" =>
      one ⟨"/boards/" ++ jsToString (getArg args "boardId") ++ "/statuses", .GET, none⟩
  | "create_row" =>
      one ⟨"/rows", .POST, some (.json (.obj [
        ("boardId", getArg args "boardId"),
        ("title", getArg args "title"),
        ("startDate", getArg args "startDate"),
        ("endDate", getArg args "endDate")]))⟩
  | "list_items" =>
      let query := serializeParams (listItemsParams args)
      one ⟨"/items" ++ (if query = "" then "" else "?" ++ query), .GET, none⟩
  | "get_item" =>
      one ⟨"/items/" ++ jsToString (getArg args "itemId"), .GET, none⟩
  | "create_item" =>
      one ⟨"/items", .POST, some (.json (createItemBody args))⟩
  | "update_item" =>
      one ⟨"/items/" ++ jsToString (getArg args "itemId"), .PUT,
        some (.json (.obj [("data", .obj (updateItemData args))]))⟩
  | "delete_item" =>
      one ⟨"/items/" ++ jsToString (getArg args "itemId"), .DELETE, none⟩
  | "move_item" =>
      one ⟨"/items/" ++ jsToString (getArg args "itemId"), .PUT,
        some (.json (.obj [("data", .obj [
          ("boardId", getArg args "targetBoardId"),
          ("statusId", getArg args "targetStatusId"),
          ("rowId", getArg args "targetRowId")])]))⟩
  | "archive_item" =>
      one ⟨"/items/" ++ jsToString (getArg args "itemId"), .PUT,
        some (.json (.obj [("data", .obj [
          ("archived", jsNullish (getArg args "archived") (.bool true))])]))⟩
  | "list_attachments" =>
      one ⟨"/items/" ++ jsToString (getArg args "itemId") ++ "/attachments", .GET, none⟩
  | "get_attachment" =>
      one ⟨"/attachments/" ++ jsToString (getArg args "attachmentId"), .GET, none⟩
  | "download_attachment" =>
      one ⟨"/attachments/" ++ jsToString (getArg args "attachmentId") ++ "/content", .GET, none⟩
  | "update_attachment" =>
      one ⟨"/attachments/" ++ jsToString (getArg args "attachmentId"), .PUT,
        some (.json (.obj [("Name", getArg args "name")]))⟩
  | "delete_attachment" =>
      one ⟨"/attachments/" ++ jsToString (getArg args "attachmentId"), .DELETE, none⟩
  | "upload_attachment" =>
      one ⟨"/attachments", .POST, some (.multipart
        (jsToString (getArg args "itemId"))
        (jsToString (getArg args "name"))
        (jsToString (getArg args "content")))⟩
  | "list_users" => one ⟨"/users", .GET, none⟩
  | "get_time_logs" =>
      one ⟨"/timelogs", .POST, some (.json (.obj [
        ("workspaceId", getArg args "workspaceId"),
        ("startDate", getArg args "startDate"),
        ("endDate", getArg args "endDate"),
        ("boardIds", getArg args "boardIds"),
        ("rowIds", getArg args "rowIds"),
        ("userIds", getArg args "userIds"),
        ("tags", getArg args "tags")]))⟩
  | "list_workspace_templates" => one ⟨"/templates/workspace", .GET, none⟩
  | "list_board_templates" => one ⟨"/templates/board", .GET, none⟩
  | "list_activities" =>
      one ⟨"/boards/" ++ jsToString (getArg args "boardId") ++ "/item-activities", .POST,
        some (.json (.obj [
          ("startDate", getArg args "startDate"),
          ("endDate", getArg args "endDate"),
          ("offset", jsNullish (getArg args "offset") (.num 0)),
          ("limit", jsNullish (getArg args "limit") (.num 100))]))⟩
  | "list_system_logs" =>
      let logParams :=
        [("fromDate", jsToString (getArg args "fromDate")),
         ("toDate", jsToString (getArg args "toDate"))] ++
        qDefined "skip" (getArg args "skip") ++
        qDefined "take" (getArg args "take")
      one ⟨"/logs?" ++ serializeParams logParams, .GET, none⟩
  | other => (.error ("Unknown tool: " ++ other), [])

/-- One content block of an MCP response. -/
structure ContentBlock where
  type : String
  text : String
deriving DecidableEq

/-- The MCP response envelope the `CallToolRequestSchema` handler builds.
The handler omits `isError` on success; the protocol reads that as
`false`, modelled here directly. -/
structure CallToolResponse where
  content : List ContentBlock
  isError : Bool
deriving DecidableEq

/-- The `CallToolRequestSchema` handler (src/index.ts lines 831-856): a
successful dispatch is wrapped as one text block holding the result
pretty-printed with 2-space indentation; any thrown error is caught and
returned as one text block `Error: <message>` with the error flag set.
The handler is total — a failing call produces a response instead of
terminating the endpoint. -/
def handleCallTool (backend : Backend) (name : String) (args : Args) :
    CallToolResponse :=
  match (handleToolCall backend name args).1 with
  | .ok result => { content := [⟨"text", jsonStringify 2 result⟩], isError := false }
  | .error msg => { content := [⟨"text", "Error: " ++ msg⟩], isError := true }

/-- Whether every required argument of the tool is present in the record. -/
def requiredPresent (t : ToolSpec) (args : Args) : Bool :=
  t.required.all (fun k => !(getArg args k).isUndefined)

/-- A concrete argument record per tool supplying exactly the tool's
required arguments. -/
def sampleArgs : String → Args
  | "get_workspace" => [("workspaceId", .str "w1")]
  | "create_workspace" => [("title", .str "t"), ("displayId", .str "d"),
      ("icon", .str "i"), ("templateId", .str "tp"), ("ownerId", .str "o")]
  | "add_workspace_member" => [("workspaceId", .str "w1"), ("userId", .str "u1")]
  | "list_boards" => [("workspaceId", .str "w1")]
  | "get_board" => [("workspaceId", .str "w1"), ("boardId", .str "b1")]
  | "create_board" => [("workspaceId", .str "w1"), ("title", .str "t"),
      ("displayId", .str "d"), ("templateId", .str "tp"), ("viewType", .str "Kanban")]
  | "list_rows" => [("boardId", .str "b1")]
  | "list_statuses" => [("boardId", .str "b1")]
  | "create_row" => [("boardId", .str "b1"), ("title", .str "t")]
  | "get_item" => [("itemId", .str "i1")]
  | "create_item" => [("workspaceId", .str "w1"), ("boardId", .str "b1"),
      ("statusId", .str "s1"), ("title", .str "t")]
  | "update_item" => [("itemId", .str "i1")]
  | "delete_item" => [("itemId", .str "i1")]
  | "move_item" => [("itemId", .str "i1")]
  | "archive_item" => [("itemId", .str "i1")]
  | "list_attachments" => [("itemId", .str "i1")]
  | "get_attachment" => [("attachmentId", .str "a1")]
  | "download_attachment" => [("attachmentId", .str "a1")]
  | "update_attachment" => [("attachmentId", .str "a1"), ("name", .str "n")]
  | "delete_attachment" => [("attachmentId", .str "a1")]
  | "upload_attachment" => [("itemId", .str "i1"), ("name", .str "n"), ("content", .str "AQI")]
  | "get_time_logs" => [("workspaceId", .str "w1"), ("startDate", .str "d1"),
      ("endDate", .str "d2")]
  | "list_activities" => [("boardId", .str "b1"), ("startDate", .str "d1"),
      ("endDate", .str "d2")]
  | "list_system_logs" => [("fromDate", .str "d1"), ("toDate", .str "d2")]
  | _ => []

/-- A fixed JSON body for exercising the success path of every tool. -/
def fixedBody : JVal := .obj [("k", .str "v")]

/-- A backend mock answering every call with `fixedBody`. -/
def fixedBackend : Backend := fun _ => .ok fixedBody

/-- The fields present in the serialized form of a request body object:
`JSON.stringify` drops fields whose value is `undefined`. -/
def sentFields : JVal → List (String × JVal)
  | .obj fs => fs.filter (fun p => !p.2.isUndefined)
  | _ => []

/-- The argument-name to body-field-name table of `update_item`, read off
the spec: every updatable argument keeps its name except `assigneeId`,
which becomes `userId`. -/
def updateFieldRenames : List (String × String) := [
  ("title", "title"), ("description", "description"), ("statusId", "statusId"),
  ("rowId", "rowId"), ("boardId", "boardId"), ("assigneeId", "userId"),
  ("startDate", "startDate"), ("dueDate", "dueDate"), ("color", "color"),
  ("tags", "tags"), ("customFields", "customFields"), ("blocking", "blocking"),
  ("waiting", "waiting"), ("archived", "archived"), ("milestone", "milestone"),
  ("progress", "progress"), ("parentId", "parentId")]

/-- The string-valued filters of `list_items` with their capitalized query
names, read off the spec. -/
def listItemsStringFilters : List (String × String) := [
  ("workspaceId", "WorkspaceId"), ("boardId", "BoardId"), ("statusId", "StatusId"),
  ("rowId", "RowId"), ("assignedUserId", "AssignedUserId"), ("ownerId", "OwnerId"),
  ("parentId", "ParentId"), ("createdSince", "CreatedSince"),
  ("modifiedSince", "ModifiedSince"), ("completedSince", "CompletedSince")]

/-- Every query-parameter name `list_items` can emit. -/
def listItemsQueryKeys : List String := [
  "WorkspaceId", "BoardId", "StatusId", "RowId", "AssignedUserId", "OwnerId",
  "ParentId", "Completed", "Tags", "CustomFields", "CreatedSince", "ModifiedSince",
  "CompletedSince", "IncludeChildItems", "Skip", "Take"]

/-- Every filter-argument name `list_items` accepts. -/
def listItemsArgNames : List String := [
  "workspaceId", "boardId", "statusId", "rowId", "assignedUserId", "ownerId",
  "parentId", "completed", "tags", "customFields", "createdSince", "modifiedSince",
  "completedSince", "includeChildItems", "skip", "take"]

/-- Sanity of the `JSON.stringify` model on concrete values: the 2-space
pretty form and the compact form, with an `undefined` array element
becoming `null`. -/
theorem jsonStringify_samples :
    jsonStringify 2 (.obj [("k", .str "v")]) = "\x7b\n  \"k\": \"v\"\n\x7d"
    ∧ jsonStringify 0 (.obj [("a", .num 1), ("b", .arr [.num 1, .undefined])]) =
        "\x7b\"a\":1,\"b\":[1,null]\x7d" := by
  decide

/-- Sanity of the `URLSearchParams` serialization model: repeated keys and
form-url percent-encoding with `+` for spaces. -/
theorem serializeParams_samples :
    serializeParams [("Tags", "a"), ("Tags", "b")] = "Tags=a&Tags=b"
    ∧ formUrlEncode "a b:c" = "a+b%3Ac" := by
  decide

/-- Sanity of the `String(x)` coercion model: array join with empty slots
for `null`. -/
theorem jsToString_samples : jsToString (.arr [.str "x", .num 0, .null]) = "x,0," := by
  decide

/-- A value other than `undefined` has `isUndefined = false`. -/
theorem isUndef_false_of_ne {v : JVal} (h : v ≠ .undefined) : v.isUndefined = false := by
  cases v
  · exact absurd rfl h
  all_goals rfl

/-- A value with `isUndefined = false` is not `undefined`. -/
theorem ne_undef_of_isUndef_false {v : JVal} (h : v.isUndefined = false) : v ≠ .undefined := by
  cases v <;> simp [JVal.isUndefined] at h ⊢

/-- String coercion on string values is the identity. -/
theorem jsToString_str (s : String) : jsToString (.str s) = s := rfl

/-- Every pair a `qTruthy` segment emits carries the segment's key. -/
theorem qTruthy_key {K : String} {v : JVal} {p : String × String}
    (h : p ∈ qTruthy K v) : p.1 = K := by
  unfold qTruthy at h
  split at h
  · simp at h; rw [h]
  · simp at h

/-- Every pair a `qDefined` segment emits carries the segment's key. -/
theorem qDefined_key {K : String} {v : JVal} {p : String × String}
    (h : p ∈ qDefined K v) : p.1 = K := by
  unfold qDefined at h
  split at h
  · simp at h
  · simp at h; rw [h]

/-- Every pair a `qEach` segment emits carries the segment's key. -/
theorem qEach_key {K : String} {v : JVal} {p : String × String}
    (h : p ∈ qEach K v) : p.1 = K := by
  unfold qEach at h
  split at h
  · simp at h
    obtain ⟨t, _, ht⟩ := h
    rw [← ht]
  · simp at h

/-- Case analysis on the origin of a pair of the `list_items` parameter
list: each pair comes from exactly one filter segment and carries that
segment's key. -/
theorem listItemsParams_cases (args : Args) (p : String × String)
    (hp : p ∈ listItemsParams args) :
    (p.1 = "WorkspaceId" ∧ p ∈ qTruthy "WorkspaceId" (getArg args "workspaceId")) ∨
    (p.1 = "BoardId" ∧ p ∈ qTruthy "BoardId" (getArg args "boardId")) ∨
    (p.1 = "StatusId" ∧ p ∈ qTruthy "StatusId" (getArg args "statusId")) ∨
    (p.1 = "RowId" ∧ p ∈ qTruthy "RowId" (getArg args "rowId")) ∨
    (p.1 = "AssignedUserId" ∧ p ∈ qTruthy "AssignedUserId" (getArg args "assignedUserId")) ∨
    (p.1 = "OwnerId" ∧ p ∈ qTruthy "OwnerId" (getArg args "ownerId")) ∨
    (p.1 = "ParentId" ∧ p ∈ qTruthy "ParentId" (getArg args "parentId")) ∨
    (p.1 = "Completed" ∧ p ∈ qDefined "Completed" (getArg args "completed")) ∨
    (p.1 = "Tags" ∧ p ∈ qEach "Tags" (getArg args "tags")) ∨
    (p.1 = "CustomFields" ∧ p ∈ qEach "CustomFields" (getArg args "customFields")) ∨
    (p.1 = "CreatedSince" ∧ p ∈ qTruthy "CreatedSince" (getArg args "createdSince")) ∨
    (p.1 = "ModifiedSince" ∧ p ∈ qTruthy "ModifiedSince" (getArg args "modifiedSince")) ∨
    (p.1 = "CompletedSince" ∧ p ∈ qTruthy "CompletedSince" (getArg args "completedSince")) ∨
    (p.1 = "IncludeChildItems" ∧ p ∈ qDefined "IncludeChildItems" (getArg args "includeChildItems")) ∨
    (p.1 = "Skip" ∧ p ∈ qDefined "Skip" (getArg args "skip")) ∨
    (p.1 = "Take" ∧ p ∈ qDefined "Take" (getArg args "take")) := by
  simp only [listItemsParams, listItemsSegs, List.flatten, List.append_nil,
    List.mem_append] at hp
  rcases hp with h|h|h|h|h|h|h|h|h|h|h|h|h|h|h|h
  · exact Or.inl ⟨qTruthy_key h, h⟩
  · exact Or.inr (Or.inl ⟨qTruthy_key h, h⟩)
  · exact Or.inr (Or.inr (Or.inl ⟨qTruthy_key h, h⟩))
  · exact Or.inr (Or.inr (Or.inr (Or.inl ⟨qTruthy_key h, h⟩)))
  · exact Or.inr (Or.inr (Or.inr (Or.inr (Or.inl ⟨qTruthy_key h, h⟩))))
  · exact Or.inr (Or.inr (Or.inr (Or.inr (Or.inr (Or.inl ⟨qTruthy_key h, h⟩)))))
  · exact Or.inr (Or.inr (Or.inr (Or.inr (Or.inr (Or.inr (Or.inl ⟨qTruthy_key h, h⟩))))))
  · exact Or.inr (Or.inr (Or.inr (Or.inr (Or.inr (Or.inr (Or.inr (Or.inl
      ⟨qDefined_key h, h⟩)))))))
  · exact Or.inr (Or.inr (Or.inr (Or.inr (Or.inr (Or.inr (Or.inr (Or.inr (Or.inl
      ⟨qEach_key h, h⟩))))))))
  · exact Or.inr (Or.inr (Or.inr (Or.inr (Or.inr (Or.inr (Or.inr (Or.inr (Or.inr (Or.inl
      ⟨qEach_key h, h⟩)))))))))
  · exact Or.inr (Or.inr (Or.inr (Or.inr (Or.inr (Or.inr (Or.inr (Or.inr (Or.inr (Or.inr
      (Or.inl ⟨qTruthy_key h, h⟩))))))))))
  · exact Or.inr (Or.inr (Or.inr (Or.inr (Or.inr (Or.inr (Or.inr (Or.inr (Or.inr (Or.inr
      (Or.inr (Or.inl ⟨qTruthy_key h, h⟩)))))))))))
  · exact Or.inr (Or.inr (Or.inr (Or.inr (Or.inr (Or.inr (Or.inr (Or.inr (Or.inr (Or.inr
      (Or.inr (Or.inr (Or.inl ⟨qTruthy_key h, h⟩))))))))))))
  · exact Or.inr (Or.inr (Or.inr (Or.inr (Or.inr (Or.inr (Or.inr (Or.inr (Or.inr (Or.inr
      (Or.inr (Or.inr (Or.inr (Or.inl ⟨qDefined_key h, h⟩)))))))))))))
  · exact Or.inr (Or.inr (Or.inr (Or.inr (Or.inr (Or.inr (Or.inr (Or.inr (Or.inr (Or.inr
      (Or.inr (Or.inr (Or.inr (Or.inr (Or.inl ⟨qDefined_key h, h⟩))))))))))))))
  · exact Or.inr (Or.inr (Or.inr (Or.inr (Or.inr (Or.inr (Or.inr (Or.inr (Or.inr (Or.inr
      (Or.inr (Or.inr (Or.inr (Or.inr (Or.inr ⟨qDefined_key h, h⟩))))))))))))))

/-- C1: every `create_item` invocation issues exactly one POST to `/items`
whose body renames the `assigneeId` argument to an `assignedUserId` field
and carries no `assigneeId` key; `tags`, `customFields`, `blocking` and
`waiting` are always present — the caller's array when supplied, the empty
array when absent; and `milestone: false`, `isSuspended: false`,
`suspendReason: ""` are always sent regardless of the arguments. -/
theorem create_item_outgoing_body (backend : Backend) (args : Args) :
    (handleToolCall backend "create_item" args).2
        = [⟨"/items", .POST, some (.json (createItemBody args))⟩]
    ∧ (∀ v, ("assigneeId", v) ∉ sentFields (createItemBody args))
    ∧ (getArg args "assigneeId" ≠ .undefined →
        ("assignedUserId", getArg args "assigneeId") ∈ sentFields (createItemBody args))
    ∧ (∀ ts, getArg args "tags" = .arr ts →
        ("tags", JVal.arr ts) ∈ sentFields (createItemBody args))
    ∧ (getArg args "tags" = .undefined →
        ("tags", JVal.arr []) ∈ sentFields (createItemBody args))
    ∧ (∀ ts, getArg args "customFields" = .arr ts →
        ("customFields", JVal.arr ts) ∈ sentFields (createItemBody args))
    ∧ (getArg args "customFields" = .undefined →
        ("customFields", JVal.arr []) ∈ sentFields (createItemBody args))
    ∧ (∀ ts, getArg args "blocking" = .arr ts →
        ("blocking", JVal.arr ts) ∈ sentFields (createItemBody args))
    ∧ (getArg args "blocking" = .undefined →
        ("blocking", JVal.arr []) ∈ sentFields (createItemBody args))
    ∧ (∀ ts, getArg args "waiting" = .arr ts →
        ("waiting", JVal.arr ts) ∈ sentFields (createItemBody args))
    ∧ (getArg args "waiting" = .undefined →
        ("waiting", JVal.arr []) ∈ sentFields (createItemBody args))
    ∧ ("milestone", JVal.bool false) ∈ sentFields (createItemBody args)
    ∧ ("isSuspended", JVal.bool false) ∈ sentFields (createItemBody args)
    ∧ ("suspendReason", JVal.str "") ∈ sentFields (createItemBody args) := by
  refine ⟨rfl, ?_, ?_, ?_, ?_, ?_, ?_, ?_, ?_, ?_, ?_, ?_, ?_, ?_⟩
  · intro v hv
    simp [sentFields, createItemBody, List.mem_filter] at hv
  · intro h
    simp [sentFields, createItemBody, List.mem_filter, isUndef_false_of_ne h]
  · intro ts h
    simp [sentFields, createItemBody, List.mem_filter, h, jsOr, jsTruthy, JVal.isUndefined]
  · intro h
    simp [sentFields, createItemBody, List.mem_filter, h, jsOr, jsTruthy, JVal.isUndefined]
  · intro ts h
    simp [sentFields, createItemBody, List.mem_filter, h, jsOr, jsTruthy, JVal.isUndefined]
  · intro h
    simp [sentFields, createItemBody, List.mem_filter, h, jsOr, jsTruthy, JVal.isUndefined]
  · intro ts h
    simp [sentFields, createItemBody, List.mem_filter, h, jsOr, jsTruthy, JVal.isUndefined]
  · intro h
    simp [sentFields, createItemBody, List.mem_filter, h, jsOr, jsTruthy, JVal.isUndefined]
  · intro ts h
    simp [sentFields, createItemBody, List.mem_filter, h, jsOr, jsTruthy, JVal.isUndefined]
  · intro h
    simp [sentFields, createItemBody, List.mem_filter, h, jsOr, jsTruthy, JVal.isUndefined]
  · simp [sentFields, createItemBody, List.mem_filter, JVal.isUndefined]
  · simp [sentFields, createItemBody, List.mem_filter, JVal.isUndefined]
  · simp [sentFields, createItemBody, List.mem_filter, JVal.isUndefined]

/-- C1 witness: a concrete `create_item` call with `assigneeId: "U1"` and
no array arguments. -/
theorem create_item_outgoing_body_witness :
    ("assignedUserId", JVal.str "U1") ∈
      sentFields (createItemBody [("assigneeId", .str "U1")])
    ∧ (∀ v, ("assigneeId", v) ∉ sentFields (createItemBody [("assigneeId", .str "U1")]))
    ∧ ("tags", JVal.arr []) ∈ sentFields (createItemBody [("assigneeId", .str "U1")]) := by
  have h := create_item_outgoing_body (fun _ => .ok (.obj [])) [("assigneeId", .str "U1")]
  exact ⟨h.2.2.1 (by simp [getArg]), h.2.1, h.2.2.2.2.1 rfl⟩

/-- The `update_item` patch object is the flattening of one conditional
field per entry of the rename table, in table order. -/
theorem updateItemData_flatten (args : Args) :
    updateItemData args =
      (updateFieldRenames.map (fun pr => condField pr.2 (getArg args pr.1))).flatten := by
  simp [updateItemData, updateFieldRenames]

/-- C2: every `update_item` invocation issues exactly one PUT to
`/items/<itemId>` whose body is the single object `data: D`; `D` holds
exactly the fields the caller explicitly supplied (an absent argument
contributes nothing — never `null` or a default), `assigneeId` is renamed
to `userId` inside `D`, no `assigneeId` key ever appears, and a call with
only `itemId` yields an empty `D`. -/
theorem update_item_outgoing_body (backend : Backend) (args : Args) :
    (handleToolCall backend "update_item" args).2
        = [⟨"/items/" ++ jsToString (getArg args "itemId"), .PUT,
            some (.json (.obj [("data", .obj (updateItemData args))]))⟩]
    ∧ (∀ a k, (a, k) ∈ updateFieldRenames → getArg args a ≠ .undefined →
        (k, getArg args a) ∈ updateItemData args)
    ∧ (∀ k v, (k, v) ∈ updateItemData args →
        v ≠ .undefined ∧ ∃ a, (a, k) ∈ updateFieldRenames ∧ getArg args a = v)
    ∧ (getArg args "assigneeId" ≠ .undefined →
        ("userId", getArg args "assigneeId") ∈ updateItemData args)
    ∧ (∀ v, ("assigneeId", v) ∉ updateItemData args)
    ∧ (∀ w, updateItemData [("itemId", w)] = []) := by
  have hdir1 : ∀ a k, (a, k) ∈ updateFieldRenames → getArg args a ≠ .undefined →
      (k, getArg args a) ∈ updateItemData args := by
    intro a k hm hne
    rw [updateItemData_flatten]
    refine List.mem_flatten.mpr ⟨condField k (getArg args a), ?_, ?_⟩
    · exact List.mem_map.mpr ⟨(a, k), hm, rfl⟩
    · simp [condField, isUndef_false_of_ne hne]
  have hdir2 : ∀ k v, (k, v) ∈ updateItemData args →
      v ≠ .undefined ∧ ∃ a, (a, k) ∈ updateFieldRenames ∧ getArg args a = v := by
    intro k v hm
    rw [updateItemData_flatten] at hm
    obtain ⟨l, hl, hkv⟩ := List.mem_flatten.mp hm
    obtain ⟨pr, hpr, hfl⟩ := List.mem_map.mp hl
    rw [← hfl] at hkv
    unfold condField at hkv
    split at hkv
    · simp at hkv
    · next hu =>
      simp at hkv
      obtain ⟨hk, hv⟩ := hkv
      refine ⟨?_, pr.1, ?_, hv.symm⟩
      · rw [hv]; exact ne_undef_of_isUndef_false (by simpa using hu)
      · rw [hk]; exact hpr
  refine ⟨rfl, hdir1, hdir2, hdir1 "assigneeId" "userId" (by simp [updateFieldRenames]), ?_, ?_⟩
  · intro v hv
    obtain ⟨-, a, ha, -⟩ := hdir2 "assigneeId" v hv
    have hnotgt : ∀ pr ∈ updateFieldRenames, pr.2 ≠ "assigneeId" := by
      simp [updateFieldRenames]
    exact hnotgt (a, "assigneeId") ha rfl
  · intro w
    simp [updateItemData, condField, getArg, List.lookup, JVal.isUndefined]

/-- C2 witness: `update_item` with `assigneeId: "U1"` produces
`data: (userId: "U1")`, and with only `itemId` an empty patch object. -/
theorem update_item_outgoing_body_witness :
    ("userId", JVal.str "U1") ∈ updateItemData [("itemId", .str "I1"), ("assigneeId", .str "U1")]
    ∧ updateItemData [("itemId", JVal.str "I1")] = [] := by
  have h := update_item_outgoing_body (fun _ => .ok (.obj []))
    [("itemId", .str "I1"), ("assigneeId", .str "U1")]
  have h2 := update_item_outgoing_body (fun _ => .ok (.obj [])) [("itemId", JVal.str "I1")]
  exact ⟨h.2.2.2.1 (by simp [getArg, List.lookup]), h2.2.2.2.2.2 (.str "I1")⟩

/-- C3: any failing dispatch — unknown tool name, dispatcher error or
transport error — is caught by the endpoint and returned as a response
flagged as an error whose single text block is `Error: <message>`; the
handler is total, so the endpoint survives every failure; in particular
an unknown tool name yields the message `Unknown tool: <name>`. -/
theorem call_tool_error_envelope :
    (∀ (backend : Backend) (name : String) (args : Args) (msg : String),
        (handleToolCall backend name args).1 = .error msg →
        handleCallTool backend name args = ⟨[⟨"text", "Error: " ++ msg⟩], true⟩)
    ∧ (∀ (backend : Backend) (args : Args),
        handleCallTool backend "unknown_tool_xyz" args =
          ⟨[⟨"text", "Error: " ++ "Unknown tool: unknown_tool_xyz"⟩], true⟩) := by
  constructor
  · intro backend name args msg h
    unfold handleCallTool
    rw [h]
  · intro backend args
    rfl

/-- C3 witness: a transport failure surfaces as an error-flagged
response. -/
theorem call_tool_error_envelope_witness :
    handleCallTool (fun _ => .error "boom") "list_users" [] =
      ⟨[⟨"text", "Error: boom"⟩], true⟩ :=
  call_tool_error_envelope.1 (fun _ => .error "boom") "list_users" [] "boom" rfl

/-- Reduction of the dispatcher on `get_board` (src/index.ts lines
590-595): one boards-list request for the workspace, then a local linear
search of the response. -/
theorem handleToolCall_get_board (backend : Backend) (args : Args) :
    handleToolCall backend "get_board" args =
      (let c : ApiCall :=
        ⟨"/workspaces/" ++ jsToString (getArg args "workspaceId") ++ "/boards", .GET, none⟩
       match backend c with
       | .error e => (.error e, [c])
       | .ok boards =>
          match boards with
          | .arr l =>
              match l.find? (fun b => jsStrictEq (jsGetProp b "id") (getArg args "boardId")) with
              | some board => (.ok board, [c])
              | none =>
                  (.error ("Board " ++ jsToString (getArg args "boardId") ++
                    " not found in workspace"), [c])
          | _ => (.error "boards.find is not a function", [c])) := rfl

/-- C5: `get_board` issues exactly one backend request — the boards list
of the given workspace, never a single-board endpoint — and searches the
returned list locally: when no board of the list has the requested id it
fails with a message containing `not found` (surfaced as an error-flagged
response), and when the search finds a match it returns that board object
unchanged. -/
theorem get_board_local_search (backend : Backend) (args : Args) :
    (handleToolCall backend "get_board" args).2 =
      [⟨"/workspaces/" ++ jsToString (getArg args "workspaceId") ++ "/boards", .GET, none⟩]
    ∧ ∀ l, backend ⟨"/workspaces/" ++ jsToString (getArg args "workspaceId") ++ "/boards",
          .GET, none⟩ = .ok (.arr l) →
        ((∀ bd ∈ l, jsStrictEq (jsGetProp bd "id") (getArg args "boardId") = false) →
          (handleToolCall backend "get_board" args).1 =
            .error ("Board " ++ jsToString (getArg args "boardId") ++ " not found in workspace")
          ∧ handleCallTool backend "get_board" args =
            ⟨[⟨"text", "Error: " ++ ("Board " ++ jsToString (getArg args "boardId") ++
              " not found in workspace")⟩], true⟩)
        ∧ (∀ bd, l.find? (fun b => jsStrictEq (jsGetProp b "id") (getArg args "boardId"))
              = some bd →
            (handleToolCall backend "get_board" args).1 = .ok bd) := by
  unfold handleCallTool
  rw [handleToolCall_get_board]
  rcases hb : backend ⟨"/workspaces/" ++ jsToString (getArg args "workspaceId") ++ "/boards",
      .GET, none⟩ with e | v
  · simp [hb]
  · rcases v with _ | _ | b | n | s | l | fs <;> simp [hb]
    rcases hf : (l.find?
        (fun b => jsStrictEq (jsGetProp b "id") (getArg args "boardId"))) with _ | bd
    · simp [hf]
    · simp [hf]
      exact ⟨bd, List.mem_of_find?_eq_some hf, by simpa using List.find?_some hf⟩

/-- C5 witness: a mocked boards list containing the requested id returns
that board unchanged; an empty boards list reports `not found`. -/
theorem get_board_local_search_witness :
    (handleToolCall (fun _ => .ok (.arr [.obj [("id", .str "b1")]])) "get_board"
        [("workspaceId", .str "w1"), ("boardId", .str "b1")]).1 =
      .ok (.obj [("id", .str "b1")])
    ∧ (handleToolCall (fun _ => .ok (.arr [])) "get_board"
        [("workspaceId", .str "w1"), ("boardId", .str "b2")]).1 =
      .error "Board b2 not found in workspace" := by
  constructor
  · exact ((get_board_local_search (fun _ => .ok (.arr [.obj [("id", .str "b1")]]))
      [("workspaceId", .str "w1"), ("boardId", .str "b1")]).2
      [.obj [("id", .str "b1")]] rfl).2 (.obj [("id", .str "b1")]) rfl
  · exact (((get_board_local_search (fun _ => .ok (.arr []))
      [("workspaceId", .str "w1"), ("boardId", .str "b2")]).2
      [] rfl).1 (by simp)).1

/-- C6: whenever the backend answers with a non-success HTTP status, the
transport client fails with a message carrying both the numeric status and
the raw response body text. -/
theorem api_error_surfaced (baseUrl apiKey endpoint : String) (method : Method)
    (body : Option JVal) (fetch : FetchRequest → HttpResponse) (parse : String → JVal)
    (h : (fetch (buildFetchRequest baseUrl apiKey endpoint method body)).ok = false) :
    apiRequest baseUrl apiKey endpoint method body fetch parse =
      .error ("API Error " ++
        toString (fetch (buildFetchRequest baseUrl apiKey endpoint method body)).status ++
        ": " ++ (fetch (buildFetchRequest baseUrl apiKey endpoint method body)).text) := by
  unfold apiRequest
  simp [h]

/-- C6 witness: an HTTP 404 with body `Not found` yields the error message
`API Error 404: Not found`, which contains the status and the body. -/
theorem api_error_surfaced_witness :
    apiRequest "https://api" "key" "/items" .GET none
      (fun _ => ⟨false, 404, "Not found"⟩) (fun _ => .null) =
      .error "API Error 404: Not found" :=
  api_error_surfaced "https://api" "key" "/items" .GET none
    (fun _ => ⟨false, 404, "Not found"⟩) (fun _ => .null) rfl

/-- C7 counterexample: a GET request carries no body, yet its headers do
contain `Content-Type: application/json` — the header is not reserved for
requests with a body, refuting the claim as stated. -/
theorem transport_content_type_counterexample :
    (buildFetchRequest "https://api" "key" "/workspaces" .GET none).body = none
    ∧ ("Content-Type", "application/json") ∈
        (buildFetchRequest "https://api" "key" "/workspaces" .GET none).headers := by
  constructor
  · rfl
  · simp [buildFetchRequest]

/-- C7 amended: the URL is `baseUrl ++ endpoint`, the `Authorization`
header carries the raw API key, and the `Content-Type: application/json`
header is attached to every request (with or without a body); GET and
DELETE requests never carry a body, and a truthy body is serialized for
POST and PUT. -/
theorem transport_request_shape (baseUrl apiKey endpoint : String) (method : Method)
    (body : Option JVal) :
    (buildFetchRequest baseUrl apiKey endpoint method body).url = baseUrl ++ endpoint
    ∧ (buildFetchRequest baseUrl apiKey endpoint method body).headers =
        [("Authorization", apiKey), ("Content-Type", "application/json")]
    ∧ (method = .GET ∨ method = .DELETE →
        (buildFetchRequest baseUrl apiKey endpoint method body).body = none)
    ∧ (∀ v, body = some v → jsTruthy v = true → (method = .POST ∨ method = .PUT) →
        (buildFetchRequest baseUrl apiKey endpoint method body).body =
          some (jsonStringify 0 v)) := by
  refine ⟨rfl, rfl, ?_, ?_⟩
  · intro h
    rcases body with _ | v
    · rfl
    · rcases h with h | h <;> subst h <;> simp [buildFetchRequest]
  · intro v hv ht hm
    subst hv
    rcases hm with h | h <;> subst h <;> simp [buildFetchRequest, ht]

/-- C7 witness: concrete GET without body and POST with the always-truthy
empty-object body. -/
theorem transport_request_shape_witness :
    (buildFetchRequest "b" "k" "/x" .GET none).body = none
    ∧ (buildFetchRequest "b" "k" "/x" .POST (some (.obj []))).body =
        some (jsonStringify 0 (.obj [])) :=
  ⟨(transport_request_shape "b" "k" "/x" .GET none).2.2.1 (Or.inl rfl),
   (transport_request_shape "b" "k" "/x" .POST (some (.obj []))).2.2.2
     (.obj []) rfl rfl (Or.inl rfl)⟩

/-- C8 counterexample: the catalog holds 29 descriptors, not 30. -/
theorem catalog_count_counterexample : tools.length = 29 ∧ tools.length ≠ 30 := by
  decide

/-- C8 amended: the static catalog contains exactly 29 tool descriptors
and their names are pairwise distinct. -/
theorem catalog_descriptor_names :
    tools.length = 29 ∧ (tools.map ToolSpec.name).Nodup := by
  decide

/-- C9 counterexample: `get_board` with all required arguments and a
backend returning a fixed JSON body (a boards list containing the
requested id) succeeds, yet the response text is not that fixed body
pretty-printed — the dispatcher returns the matching element instead. -/
theorem call_tool_pretty_counterexample :
    (tools.get ⟨5, by decide⟩).name = "get_board"
    ∧ requiredPresent (tools.get ⟨5, by decide⟩) (sampleArgs "get_board") = true
    ∧ (handleCallTool (fun _ => .ok (.arr [.obj [("id", .str "b1")]])) "get_board"
        (sampleArgs "get_board")).isError = false
    ∧ handleCallTool (fun _ => .ok (.arr [.obj [("id", .str "b1")]])) "get_board"
        (sampleArgs "get_board") ≠
      ⟨[⟨"text", jsonStringify 2 (.arr [.obj [("id", .str "b1")]])⟩], false⟩ := by
  decide

/-- C9 amended: a successful dispatch is always wrapped as one text block
holding the dispatch result pretty-printed with 2-space indentation; for
every catalog tool, the per-tool sample call with all required arguments
succeeds against a fixed-body backend, and for every tool except
`get_board` the response text is exactly that fixed body pretty-printed. -/
theorem call_tool_pretty_result :
    (∀ (backend : Backend) (name : String) (args : Args) (v : JVal), v ≠ .undefined →
        (handleToolCall backend name args).1 = .ok v →
        handleCallTool backend name args = ⟨[⟨"text", jsonStringify 2 v⟩], false⟩)
    ∧ (∀ t ∈ tools, requiredPresent t (sampleArgs t.name) = true)
    ∧ (∀ t ∈ tools, t.name ≠ "get_board" →
        handleCallTool fixedBackend t.name (sampleArgs t.name) =
          ⟨[⟨"text", jsonStringify 2 fixedBody⟩], false⟩) := by
  refine ⟨?_, by decide, by decide⟩
  intro backend name args v hv h
  unfold handleCallTool
  rw [h]

/-- C9 witness: the fixed body comes back pretty-printed for a concrete
tool. -/
theorem call_tool_pretty_result_witness :
    handleCallTool fixedBackend "list_users" [] =
      ⟨[⟨"text", jsonStringify 2 fixedBody⟩], false⟩ :=
  call_tool_pretty_result.1 fixedBackend "list_users" [] fixedBody
    (by simp [fixedBody]) rfl

/-- A `qTruthy` segment contributes nothing to the query pairs filtered on
a different key. -/
theorem qTruthy_filter_ne {K K' : String} (v : JVal) (h : (K == K') = false) :
    (qTruthy K v).filter (fun p => p.1 == K') = [] := by
  unfold qTruthy
  split
  · simp [h]
  · rfl

/-- A `qDefined` segment contributes nothing to the query pairs filtered
on a different key. -/
theorem qDefined_filter_ne {K K' : String} (v : JVal) (h : (K == K') = false) :
    (qDefined K v).filter (fun p => p.1 == K') = [] := by
  unfold qDefined
  split
  · rfl
  · simp [h]

/-- A `qEach` segment contributes nothing to the query pairs filtered on a
different key. -/
theorem qEach_filter_ne {K K' : String} (v : JVal) (h : (K == K') = false) :
    (qEach K v).filter (fun p => p.1 == K') = [] := by
  unfold qEach
  split
  · simp [List.filter_map, Function.comp, h]
  · rfl

/-- C4: every filter argument `list_items` sends appears in the query
under a capitalized parameter name distinct from every argument name
(`workspaceId` becomes `WorkspaceId`, and so on); a nonempty string filter
value appears under its capitalized key; and the array filters `tags` and
`customFields` are emitted as one repeated query key per element — never
comma-joined — as the concrete `Tags=a&Tags=b` query shows. -/
theorem list_items_query_capitalized (backend : Backend) (args : Args) :
    (∀ p ∈ listItemsParams args, p.1 ∈ listItemsQueryKeys)
    ∧ (∀ p ∈ listItemsParams args, p.1 ∉ listItemsArgNames)
    ∧ (∀ pr ∈ listItemsStringFilters, ∀ s : String, s ≠ "" →
        getArg args pr.1 = .str s → (pr.2, s) ∈ listItemsParams args)
    ∧ (∀ ts, getArg args "tags" = .arr ts →
        (listItemsParams args).filter (fun p => p.1 == "Tags") =
          ts.map (fun t => ("Tags", jsToString t)))
    ∧ (∀ ts, getArg args "customFields" = .arr ts →
        (listItemsParams args).filter (fun p => p.1 == "CustomFields") =
          ts.map (fun t => ("CustomFields", jsToString t)))
    ∧ (handleToolCall backend "list_items" [("tags", .arr [.str "a", .str "b"])]).2 =
        [⟨"/items?Tags=a&Tags=b", .GET, none⟩] := by
  refine ⟨?_, ?_, ?_, ?_, ?_, rfl⟩
  · intro p hp
    rcases listItemsParams_cases args p hp with ⟨hk, -⟩|⟨hk, -⟩|⟨hk, -⟩|⟨hk, -⟩|⟨hk, -⟩|
      ⟨hk, -⟩|⟨hk, -⟩|⟨hk, -⟩|⟨hk, -⟩|⟨hk, -⟩|⟨hk, -⟩|⟨hk, -⟩|⟨hk, -⟩|⟨hk, -⟩|⟨hk, -⟩|⟨hk, -⟩ <;>
      simp [listItemsQueryKeys, hk]
  · intro p hp
    rcases listItemsParams_cases args p hp with ⟨hk, -⟩|⟨hk, -⟩|⟨hk, -⟩|⟨hk, -⟩|⟨hk, -⟩|
      ⟨hk, -⟩|⟨hk, -⟩|⟨hk, -⟩|⟨hk, -⟩|⟨hk, -⟩|⟨hk, -⟩|⟨hk, -⟩|⟨hk, -⟩|⟨hk, -⟩|⟨hk, -⟩|⟨hk, -⟩ <;>
      simp [listItemsArgNames, hk]
  · intro pr hpr s hs hargs
    have htr : jsTruthy (JVal.str s) = true := by simp [jsTruthy, hs]
    fin_cases hpr <;>
      simp [listItemsParams, listItemsSegs, hargs, qTruthy, htr, jsToString_str]
  · intro ts h
    have htags : qEach "Tags" (getArg args "tags") =
        ts.map (fun t => ("Tags", jsToString t)) := by
      rw [h]; simp [qEach, jsTruthy, jsElems]
    simp only [listItemsParams, listItemsSegs, List.flatten, List.append_nil,
      List.filter_append, htags]
    simp [qTruthy_filter_ne, qDefined_filter_ne, qEach_filter_ne, List.filter_map,
      Function.comp_def]
  · intro ts h
    have hcf : qEach "CustomFields" (getArg args "customFields") =
        ts.map (fun t => ("CustomFields", jsToString t)) := by
      rw [h]; simp [qEach, jsTruthy, jsElems]
    simp only [listItemsParams, listItemsSegs, List.flatten, List.append_nil,
      List.filter_append, hcf]
    simp [qTruthy_filter_ne, qDefined_filter_ne, qEach_filter_ne, List.filter_map,
      Function.comp_def]

/-- C4 witness: concrete filters show the capitalized rename and the
repeated `Tags` key. -/
theorem list_items_query_capitalized_witness :
    ("WorkspaceId", "w1") ∈
      listItemsParams [("workspaceId", .str "w1"), ("tags", .arr [.str "a", .str "b"])]
    ∧ (listItemsParams [("workspaceId", .str "w1"),
        ("tags", .arr [.str "a", .str "b"])]).filter (fun p => p.1 == "Tags") =
        [("Tags", "a"), ("Tags", "b")] := by
  have h := list_items_query_capitalized (fun _ => .ok (.obj []))
    [("workspaceId", .str "w1"), ("tags", .arr [.str "a", .str "b"])]
  constructor
  · exact h.2.2.1 ("workspaceId", "WorkspaceId") (by simp [listItemsStringFilters]) "w1"
      (by simp) rfl
  · exact h.2.2.2.1 [.str "a", .str "b"] rfl

/-- C10: the filters guarded by a definedness test (`completed`,
`includeChildItems`, `skip`, `take`) reach the query whenever the argument
is defined — so `false` and `0` do appear, e.g. `skip: 0` yields `Skip=0`
— whereas every string-valued filter supplied as the empty string is
falsy and therefore omitted from the query entirely. -/
theorem list_items_boundary (args : Args) :
    (getArg args "completed" ≠ .undefined →
      ("Completed", jsToString (getArg args "completed")) ∈ listItemsParams args)
    ∧ (getArg args "includeChildItems" ≠ .undefined →
      ("IncludeChildItems", jsToString (getArg args "includeChildItems")) ∈
        listItemsParams args)
    ∧ (getArg args "skip" ≠ .undefined →
      ("Skip", jsToString (getArg args "skip")) ∈ listItemsParams args)
    ∧ (getArg args "take" ≠ .undefined →
      ("Take", jsToString (getArg args "take")) ∈ listItemsParams args)
    ∧ (getArg args "skip" = .num 0 → ("Skip", "0") ∈ listItemsParams args)
    ∧ (getArg args "completed" = .bool false →
        ("Completed", "false") ∈ listItemsParams args)
    ∧ (∀ pr ∈ listItemsStringFilters, getArg args pr.1 = .str "" →
        ∀ p ∈ listItemsParams args, p.1 ≠ pr.2) := by
  refine ⟨?_, ?_, ?_, ?_, ?_, ?_, ?_⟩
  · intro h
    simp [listItemsParams, listItemsSegs, qDefined, isUndef_false_of_ne h]
  · intro h
    simp [listItemsParams, listItemsSegs, qDefined, isUndef_false_of_ne h]
  · intro h
    simp [listItemsParams, listItemsSegs, qDefined, isUndef_false_of_ne h]
  · intro h
    simp [listItemsParams, listItemsSegs, qDefined, isUndef_false_of_ne h]
  · intro h
    have h0 : jsToString (JVal.num 0) = "0" := rfl
    simp [listItemsParams, listItemsSegs, qDefined, h, JVal.isUndefined, h0]
  · intro h
    have h0 : jsToString (JVal.bool false) = "false" := rfl
    simp [listItemsParams, listItemsSegs, qDefined, h, JVal.isUndefined, h0]
  · intro pr hpr h p hp
    fin_cases hpr <;>
      rcases listItemsParams_cases args p hp with ⟨hk, hm⟩|⟨hk, hm⟩|⟨hk, hm⟩|⟨hk, hm⟩|
        ⟨hk, hm⟩|⟨hk, hm⟩|⟨hk, hm⟩|⟨hk, hm⟩|⟨hk, hm⟩|⟨hk, hm⟩|⟨hk, hm⟩|⟨hk, hm⟩|
        ⟨hk, hm⟩|⟨hk, hm⟩|⟨hk, hm⟩|⟨hk, hm⟩ <;>
      first
      | (rw [h] at hm; simp [qTruthy, jsTruthy] at hm)
      | (rw [hk]; simp)

/-- C10 witness: `skip: 0` appears as `Skip=0` while an empty
`workspaceId` leaves no `WorkspaceId` key at all. -/
theorem list_items_boundary_witness :
    ("Skip", "0") ∈ listItemsParams [("skip", .num 0), ("workspaceId", .str "")]
    ∧ ∀ p ∈ listItemsParams [("skip", .num 0), ("workspaceId", .str "")],
        p.1 ≠ "WorkspaceId" := by
  have h := list_items_boundary [("skip", .num 0), ("workspaceId", .str "")]
  exact ⟨h.2.2.2.2.1 rfl,
    h.2.2.2.2.2.2 ("workspaceId", "WorkspaceId") (by simp [listItemsStringFilters]) rfl⟩
